import Mathlib

/-!
# HuboAchTab: the joint-identity bridge

A shallow embedding of `src/HuboAchTab.cpp` (namespace `HACHT`): the joint
mapping loop of `InitHubo`, `FindNamedDof`, `InitAch`, `ReadRefs`,
`WriteState` and `GRIPEventSceneUnLoaded`, with the members of the tab held
in an explicit state record.

Conventions.
* C++ `int` indices are `Int`; arrays (`H_param.joint`, `H_state.joint`,
  `H_ref.ref`, Eigen vectors) are functions from `Int`.
* `double` values are only ever copied or set to `0.0` by the functions
  embedded here, so the value type is a parameter `R` with a zero.
* Calls into libraries (`setJointParams`, `ach_open`, `ach_get`) are
  represented by the values they hand back, taken as arguments.
-/

namespace HACHT

/-! ## `std::map<int, int>` -/

/-- The two joint maps are declared in `HuboAchTab.h`; the source uses them
with `empty()` and with `operator[]` on keys never inserted before, on a
container that starts empty, which is `std::map<int, int>`. An association
list with at most one entry per key stands for it. -/
abbrev IntMap := List (Int × Int)

namespace IntMap

/-- The entry stored under a key, `none` when the key is absent
(`std::map::find`). -/
def find (m : IntMap) (k : Int) : Option Int := List.lookup k m

/-- Model of `std::map::empty()`. -/
def empty (m : IntMap) : Bool := m.isEmpty

/-- Model of `m[k] = v`: replaces the entry of `k`, or adds one. -/
def assign (m : IntMap) (k v : Int) : IntMap :=
  (k, v) :: m.filter (fun e => !(e.1 == k))

/-- Model of reading `m[k]`: `std::map::operator[]` returns the stored value,
and for an absent key first inserts a value-initialised entry (`0` for
`int`) and returns that. The result is the value read and the map after the
access. -/
def index (m : IntMap) (k : Int) : Int × IntMap :=
  match m.find k with
  | some v => (v, m)
  | none => (0, m.assign k 0)

end IntMap

/-! ## Data model -/

/-- Model of `hubo_joint_param`: the one field the tab reads, `name`. -/
structure hubo_joint_param where
  name : String
deriving DecidableEq

/-- Model of `hubo_param`: `joint[i]` for `0 ≤ i < HUBO_JOINT_COUNT`. -/
structure hubo_param where
  joint : Int → hubo_joint_param

/-- Model of `hubo_joint_state`: the fields the tab reads or writes. -/
structure hubo_joint_state (R : Type) where
  ref : R
  pos : R
  cur : R
  vel : R
  heat : R
  tmp : R
  active : Bool
deriving DecidableEq

/-- Model of `hubo_state`. -/
structure hubo_state (R : Type) where
  joint : Int → hubo_joint_state R
  time : R
  refWait : R

/-- Model of `hubo_ref_t`: one target position per physical joint id. -/
structure hubo_ref_t (R : Type) where
  ref : Int → R

/-- The simulated skeleton `hubo` as the tab sees it: DOF names in index
order (`getNumDofs`, `getDof(i)->getName()`), node names in index order
(`getNumNodes`, `getNode(i)->getName()`), pose and pose velocity. -/
structure Skeleton (R : Type) where
  dofs : List String
  nodes : List String
  pose : Int → R
  poseVelocity : Int → R

/-- The part of `HuboController` the tab touches: the target vector
`ref_pos`. Gains, mask and the torque law belong to `HuboController.h`. -/
structure HuboController (R : Type) where
  ref_pos : Int → R

/-- Statuses of the ach library as the tab distinguishes them: `ACH_OK`,
`ACH_STALE_FRAMES`, and every other member of `ach_status_t` (by its
numeric code). -/
inductive ach_status where
  | ACH_OK
  | ACH_STALE_FRAMES
  | other (code : Nat)
deriving DecidableEq

/-- An `ach_channel_t` handle: open or not. -/
inductive ach_channel where
  | closed
  | opened
deriving DecidableEq

/-- The members of `HuboAchTab` used by the emulation core, and the lines
written to `std::cout`. `contr` is `none` when no controller object exists. -/
structure HuboAchTab (R : Type) where
  H_param : hubo_param
  H_state : hubo_state R
  chan_hubo_ref : ach_channel
  chan_hubo_state : ach_channel
  jointmap_phys_to_virtual : IntMap
  jointmap_virtual_to_phys : IntMap
  hubo_waist : Option Nat
  hubo_foot_left : Option Nat
  hubo_foot_right : Option Nat
  contr : Option (HuboController R)
  cout : List String

/-! ## Helpers of the tab -/

/-- Loop of `FindNamedDof` from position `i` on: the index of the first
remaining DOF whose name compares equal, `-1` when the loop runs off the
end. -/
def FindNamedDofFrom (name : String) : List String → Int → Int
  | [], _ => -1
  | d :: ds, i => if name = d then i else FindNamedDofFrom name ds (i + 1)

/-- Model of `HuboAchTab::FindNamedDof`. -/
def FindNamedDof {R : Type} (hubo : Skeleton R) (name : String) : Int :=
  FindNamedDofFrom name hubo.dofs 0

/-- Loop of `FindNamedNode` from position `i` on. -/
def FindNamedNodeFrom (name : String) : List String → Nat → Option Nat
  | [], _ => none
  | d :: ds, i => if name = d then some i else FindNamedNodeFrom name ds (i + 1)

/-- Model of `HuboAchTab::FindNamedNode`: the node found, `none` for `NULL`. -/
def FindNamedNode {R : Type} (hubo : Skeleton R) (name : String) : Option Nat :=
  FindNamedNodeFrom name hubo.nodes 0

/-- The table `special_cases` of `InitHubo`. -/
def special_cases : List (String × String) :=
  [("RKN", "RKP"), ("LKN", "LKP"), ("REB", "REP"), ("LEB", "LEP")]

/-- Lines 203-204 of `InitHubo`:
`if (special_cases.count(name)) { name = special_cases[name]; }`. -/
def aliasName (aliases : List (String × String)) (name : String) : String :=
  if (aliases.lookup name).isSome then (aliases.lookup name).getD "" else name

/-- One iteration of the mapping loop of `InitHubo` (lines 203-209). -/
def mapJoint {R : Type} (aliases : List (String × String)) (hubo : Skeleton R)
    (s : HuboAchTab R) (i : Int) : HuboAchTab R :=
  let name := aliasName aliases (s.H_param.joint i).name
  let i_vir := FindNamedDof hubo name
  if (s.H_state.joint i).active && i_vir != -1 then
    { s with
      jointmap_phys_to_virtual := s.jointmap_phys_to_virtual.assign i i_vir
      jointmap_virtual_to_phys := s.jointmap_virtual_to_phys.assign i_vir i }
  else s

/-- The mapping loop of `InitHubo` (lines 202-210):
`for (int i = 0; i < HUBO_JOINT_COUNT; i++)`. -/
def mapJoints {R : Type} (aliases : List (String × String)) (HUBO_JOINT_COUNT : Nat)
    (hubo : Skeleton R) (s : HuboAchTab R) : HuboAchTab R :=
  (List.range HUBO_JOINT_COUNT).foldl (fun t i => mapJoint aliases hubo t (i : Int)) s

/-- The DOF index the mapping loop looks up for physical joint `i`:
`FindNamedDof` of the joint's name after alias substitution. -/
def jointTarget {R : Type} (aliases : List (String × String)) (hubo : Skeleton R)
    (s : HuboAchTab R) (i : Int) : Int :=
  FindNamedDof hubo (aliasName aliases (s.H_param.joint i).name)

/-- The guard of line 206 for physical joint `i`. -/
def jointMapped {R : Type} (aliases : List (String × String)) (hubo : Skeleton R)
    (s : HuboAchTab R) (i : Int) : Bool :=
  (s.H_state.joint i).active && jointTarget aliases hubo s i != -1

/-- The canonical name of a joint as the specification words it: the
alias-table value for the name if the name is a key of the table, and the
name itself otherwise. -/
def canonical (aliases : List (String × String)) (name : String) : String :=
  match aliases.lookup name with
  | some a => a
  | none => name

/-! ## The emulation core -/

/-- State of a tab right after its constructor: both maps empty, no
controller, no channel open. The constructor clears `H_param` (both
`memset` calls name `&H_param`) and never writes `H_state`, whose initial
content is therefore an argument. -/
def HuboAchTab.init {R : Type} (H_state : hubo_state R) : HuboAchTab R :=
  { H_param := ⟨fun _ => ⟨""⟩⟩
    H_state := H_state
    chan_hubo_ref := ach_channel.closed
    chan_hubo_state := ach_channel.closed
    jointmap_phys_to_virtual := []
    jointmap_virtual_to_phys := []
    hubo_waist := none
    hubo_foot_left := none
    hubo_foot_right := none
    contr := none
    cout := [] }

/-- The diagnostic of `InitHubo` for an empty correspondence (line 213). -/
def msgNoCorrespondence : String :=
  "Could not find find any joints/dofs with corresponding names. Is this the right hubo?"

/-- The diagnostic of `InitHubo` for a missing waist link (line 220). -/
def msgNoWaist : String := "Could not find waist link. Is this the right hubo?"

/-- The diagnostic of `InitHubo` for a missing foot link (line 226). -/
def msgNoFeet : String := "Could not find foot links. Is this the right hubo?"

/-- Model of `HuboAchTab::InitHubo`, with the alias table as an argument.
`params` is what `setJointParams` and `setSensorDefaults` leave in `H_param`
and `H_state`. The result is the returned `bool` and the tab afterwards.
Of the controller built at lines 231-238 only `ref_pos` is kept; the mask
written at lines 231-232 (`controller_mask[i] = 0` for `i < 5`, which
presumes a model of at least five DOFs) and the gains are not represented. -/
def InitHuboWith {R : Type} [Zero R] (aliases : List (String × String))
    (HUBO_JOINT_COUNT : Nat) (params : hubo_param × hubo_state R) (hubo : Skeleton R)
    (s : HuboAchTab R) : Bool × HuboAchTab R :=
  let s₁ := mapJoints aliases HUBO_JOINT_COUNT hubo
    { s with H_param := params.1, H_state := params.2 }
  if s₁.jointmap_phys_to_virtual.empty && s₁.jointmap_virtual_to_phys.empty then
    (false, { s₁ with cout := s₁.cout ++ [msgNoCorrespondence] })
  else
    let s₂ := { s₁ with hubo_waist := FindNamedNode hubo "Body_Hip" }
    if s₂.hubo_waist.isNone then
      (false, { s₂ with cout := s₂.cout ++ [msgNoWaist] })
    else
      let s₃ := { s₂ with
        hubo_foot_left := FindNamedNode hubo "Body_LAR"
        hubo_foot_right := FindNamedNode hubo "Body_RAR" }
      if s₃.hubo_foot_left.isNone || s₃.hubo_foot_right.isNone then
        (false, { s₃ with cout := s₃.cout ++ [msgNoFeet] })
      else
        (true, { s₃ with contr := some { ref_pos := fun _ => 0 } })

/-- Model of `HuboAchTab::InitHubo`: the alias table is `special_cases`. -/
def InitHubo {R : Type} [Zero R] (HUBO_JOINT_COUNT : Nat)
    (params : hubo_param × hubo_state R) (hubo : Skeleton R) (s : HuboAchTab R) :
    Bool × HuboAchTab R :=
  InitHuboWith special_cases HUBO_JOINT_COUNT params hubo s

/-- Model of `HuboAchTab::InitAch`. `r_ref` and `r_state` are the statuses
`ach_open` returns for the reference and for the state channel; a handle is
open after `ach_open` exactly when the status is `ACH_OK`. The second
`ach_open` is reached only when the first returned `ACH_OK`. -/
def InitAch {R : Type} (r_ref r_state : ach_status) (s : HuboAchTab R) :
    Bool × HuboAchTab R :=
  if r_ref ≠ ach_status.ACH_OK then
    (false, { s with cout := s.cout ++ ["Error: failed to open reference channel"] })
  else
    let s₁ := { s with chan_hubo_ref := ach_channel.opened }
    if r_state ≠ ach_status.ACH_OK then
      (false, { s₁ with cout := s₁.cout ++ ["Error: failed to open state channel"] })
    else
      (true, { s₁ with chan_hubo_state := ach_channel.opened })

/-- Model of `HuboAchTab::GRIPEventSceneUnLoaded`: both channels are closed
and the controller is deleted. Nothing else is touched. -/
def GRIPEventSceneUnLoaded {R : Type} (s : HuboAchTab R) : HuboAchTab R :=
  { s with
    chan_hubo_ref := ach_channel.closed
    chan_hubo_state := ach_channel.closed
    contr := none }

/-- One iteration of the loop of `ReadRefs` (lines 276-279), on the pair of
`jointmap_phys_to_virtual` and the controller. -/
def readRef {R : Type} (H_ref : hubo_ref_t R) (st : IntMap × HuboController R) (i : Int) :
    IntMap × HuboController R :=
  let a := st.1.index i
  let i_vir := a.1
  if i_vir != -1 then
    (a.2, { ref_pos := Function.update st.2.ref_pos i_vir (H_ref.ref i) })
  else (a.2, st.2)

/-- Model of `HuboAchTab::ReadRefs`. `r` is the status returned by `ach_get`
and `H_ref` the receive buffer after the call; `ach_result_to_string` is
the library routine naming a status. With no controller object the
`ACH_OK` branch dereferences an invalid pointer in the source; the model
leaves the tab as it is there. -/
def ReadRefs {R : Type} (HUBO_JOINT_COUNT : Nat) (ach_result_to_string : ach_status → String)
    (r : ach_status) (H_ref : hubo_ref_t R) (s : HuboAchTab R) : HuboAchTab R :=
  match r with
  | ach_status.ACH_OK =>
    match s.contr with
    | none => s
    | some c =>
      let st := (List.range HUBO_JOINT_COUNT).foldl (fun t i => readRef H_ref t (i : Int))
        (s.jointmap_phys_to_virtual, c)
      { s with jointmap_phys_to_virtual := st.1, contr := some st.2 }
  | ach_status.ACH_STALE_FRAMES => s
  | ach_status.other code =>
    { s with cout := s.cout ++
        ["Get reference failed: " ++ ach_result_to_string (ach_status.other code)] }

/-- Content of `H_param` and `H_state` for a catalog given as a list of
joint names and a list of active flags (slot `i` holds entry `i`), every
numeric field zero. -/
def catalogParams (names : List String) (active : List Bool) : hubo_param × hubo_state Int :=
  (⟨fun i => ⟨names.getD i.toNat ""⟩⟩,
   ⟨fun i => ⟨0, 0, 0, 0, 0, 0, active.getD i.toNat false⟩, 0, 0⟩)

/-- A skeleton with the given DOF names, the three links `InitHubo` looks
for, pose `10 * (i + 1)` and velocity `100 * (i + 1)` at DOF `i`. -/
def modelWithDofs (dofs : List String) : Skeleton Int :=
  ⟨dofs, ["Body_Hip", "Body_LAR", "Body_RAR"], fun i => 10 * (i + 1), fun i => 100 * (i + 1)⟩

/-- A freshly constructed tab whose `H_state` memory happens to be zero. -/
def freshTab : HuboAchTab Int :=
  HuboAchTab.init ⟨fun _ => ⟨0, 0, 0, 0, 0, 0, false⟩, 0, 0⟩

/-- A fresh tab holding the given catalog in `H_param` and `H_state`. -/
def tabWith (params : hubo_param × hubo_state Int) : HuboAchTab Int :=
  { freshTab with H_param := params.1, H_state := params.2 }

/-- Two active joints `RKN` and `RKP`, one DOF `RKP`: after the mapping loop. -/
def sharedNameTab : HuboAchTab Int :=
  mapJoints special_cases 2 (modelWithDofs ["RKP"]) (tabWith (catalogParams ["RKN", "RKP"] [true, true]))

/-- Catalog `RKN` (active), `LKN` (active), `HEAD` (inactive) with DOFs
`RKP`, `LKP`, `HEAD`: before the mapping loop. -/
def kneeTab : HuboAchTab Int :=
  tabWith (catalogParams ["RKN", "LKN", "HEAD"] [true, true, false])

/-- The model of `kneeTab`. -/
def kneeModel : Skeleton Int := modelWithDofs ["RKP", "LKP", "HEAD"]

/-- The model of the first load: five DOFs, the first one named `RSP`. -/
def shoulderModel : Skeleton Int := modelWithDofs ["RSP", "REP", "LSP", "LEP", "WST"]

/-- First model load of a tab: catalog with the single active joint `RSP`,
model `shoulderModel`. -/
def firstLoad : Bool × HuboAchTab Int :=
  InitHubo 1 (catalogParams ["RSP"] [true]) shoulderModel freshTab

/-- The model of the second load: five DOFs, none named like a joint. -/
def otherModel : Skeleton Int :=
  modelWithDofs ["joint_1", "joint_2", "joint_3", "joint_4", "joint_5"]

/-- Second model load, after the first model was unloaded. -/
def secondLoad : Bool × HuboAchTab Int :=
  InitHubo 1 (catalogParams ["RSP"] [true]) otherModel (GRIPEventSceneUnLoaded firstLoad.2)

/-- Model with one DOF `RSP`. -/
def armModel : Skeleton Int := modelWithDofs ["RSP"]

/-- Tab after `InitHubo` on the catalog `RSP`, `RF1` (both active) and
`armModel`: joint `0` is mapped to DOF `0`, joint `1` has no DOF. -/
def armTab : HuboAchTab Int :=
  (InitHubo 2 (catalogParams ["RSP", "RF1"] [true, true]) armModel freshTab).2

/-- A reference message with `ref[0] = 5` and `ref[i] = 7` elsewhere. -/
def armRef : hubo_ref_t Int := ⟨fun i => if i = 0 then 5 else 7⟩

end HACHT

namespace HACHT

/-! ## Facts about the map model -/

theorem IntMap.find_nil (k : Int) : IntMap.find [] k = none := rfl

theorem IntMap.lookup_filter_ne (m : IntMap) (k k' : Int) :
    List.lookup k' (m.filter (fun e => !(e.1 == k))) =
      if k' = k then none else List.lookup k' m := by
  induction m with
  | nil => simp [List.lookup]
  | cons e m ih =>
    obtain ⟨a, b⟩ := e
    by_cases hak : a = k
    · subst hak
      by_cases hk : k' = a
      · subst hk; simp [List.filter_cons, ih]
      · have : (k' == a) = false := by simpa using hk
        simp [List.filter_cons, ih, hk, List.lookup_cons, this]
    · have h1 : (a == k) = false := by simpa using hak
      by_cases hk : k' = k
      · subst hk
        have h2 : (k' == a) = false := by
          simpa using (fun h : k' = a => hak h.symm)
        simp [List.filter_cons, h1, List.lookup_cons, h2, ih]
      · by_cases hka : k' = a
        · subst hka; simp [List.filter_cons, h1, List.lookup_cons, hk]
        · have h2 : (k' == a) = false := by simpa using hka
          simp [List.filter_cons, h1, List.lookup_cons, h2, ih, hk]

theorem IntMap.find_assign (m : IntMap) (k v k' : Int) :
    (m.assign k v).find k' = if k' = k then some v else m.find k' := by
  unfold IntMap.assign IntMap.find
  by_cases hk : k' = k
  · subst hk; simp [List.lookup_cons]
  · have h2 : (k' == k) = false := by simpa using hk
    simp [List.lookup_cons, h2, IntMap.lookup_filter_ne, hk]

/-! ## Facts about `FindNamedDof` -/

theorem FindNamedDofFrom_not_mem (name : String) (ds : List String) (i : Int)
    (h : name ∉ ds) : FindNamedDofFrom name ds i = -1 := by
  induction ds generalizing i with
  | nil => rfl
  | cons d ds ih =>
    have hd : name ≠ d := fun e => h (by simp [e])
    have hds : name ∉ ds := fun e => h (by simp [e])
    simp [FindNamedDofFrom, hd, ih _ hds]

theorem FindNamedDofFrom_first (name : String) (ds : List String) (i : Int) (n : Nat)
    (hn : ds[n]? = some name) (hmin : ∀ u, u < n → ds[u]? ≠ some name) :
    FindNamedDofFrom name ds i = i + n := by
  induction ds generalizing i n with
  | nil => simp at hn
  | cons d ds ih =>
    cases n with
    | zero =>
      have : d = name := by simpa using hn
      simp [FindNamedDofFrom, this]
    | succ n =>
      have hd : name ≠ d := by
        intro e
        exact hmin 0 (Nat.succ_pos n) (by simp [e])
      have hn2 : ds[n]? = some name := by simpa using hn
      have hmin2 : ∀ u, u < n → ds[u]? ≠ some name := by
        intro u hu
        have := hmin (u + 1) (Nat.succ_lt_succ hu)
        simpa using this
      simp only [FindNamedDofFrom, hd, if_false]
      rw [ih (i + 1) n hn2 hmin2]
      push_cast
      ring

theorem exists_first_index (name : String) (ds : List String) (h : name ∈ ds) :
    ∃ n : Nat, ds[n]? = some name ∧ ∀ u, u < n → ds[u]? ≠ some name := by
  classical
  have hex : ∃ n : Nat, ds[n]? = some name := by
    obtain ⟨n, hn, e⟩ := List.getElem_of_mem h
    exact ⟨n, by simp [List.getElem?_eq_getElem hn, e]⟩
  exact ⟨Nat.find hex, Nat.find_spec hex, fun u hu => Nat.find_min hex hu⟩

/-- The value of `FindNamedDof`: `-1` when no DOF has the name, else the
least index of a DOF with that name. -/
theorem FindNamedDof_eq_iff {R : Type} (hubo : Skeleton R) (name : String) (v : Int) :
    FindNamedDof hubo name = v ↔
      (v = -1 ∧ name ∉ hubo.dofs) ∨
      (∃ n : Nat, v = n ∧ hubo.dofs[n]? = some name ∧
        ∀ u, u < n → hubo.dofs[u]? ≠ some name) := by
  unfold FindNamedDof
  constructor
  · intro h
    by_cases hm : name ∈ hubo.dofs
    · obtain ⟨n, hn, hmin⟩ := exists_first_index name hubo.dofs hm
      right
      refine ⟨n, ?_, hn, hmin⟩
      rw [← h, FindNamedDofFrom_first name hubo.dofs 0 n hn hmin]
      simp
    · left
      exact ⟨by rw [← h, FindNamedDofFrom_not_mem name hubo.dofs 0 hm], hm⟩
  · rintro (⟨hv, hm⟩ | ⟨n, hv, hn, hmin⟩)
    · rw [hv, FindNamedDofFrom_not_mem name hubo.dofs 0 hm]
    · rw [hv, FindNamedDofFrom_first name hubo.dofs 0 n hn hmin]
      simp

theorem FindNamedDof_eq_neg_one_iff {R : Type} (hubo : Skeleton R) (name : String) :
    FindNamedDof hubo name = -1 ↔ name ∉ hubo.dofs := by
  rw [FindNamedDof_eq_iff]
  constructor
  · rintro (⟨_, hm⟩ | ⟨n, hv, _, _⟩)
    · exact hm
    · omega
  · intro hm
    exact Or.inl ⟨rfl, hm⟩

theorem FindNamedDof_ne_neg_one_iff {R : Type} (hubo : Skeleton R) (name : String) :
    FindNamedDof hubo name ≠ -1 ↔ name ∈ hubo.dofs := by
  rw [Ne, FindNamedDof_eq_neg_one_iff, not_not]

/-- Two names found at the same DOF index are the same name. -/
theorem FindNamedDof_inj {R : Type} (hubo : Skeleton R) (a b : String)
    (ha : FindNamedDof hubo a ≠ -1) (hab : FindNamedDof hubo a = FindNamedDof hubo b) :
    a = b := by
  have h1 := (FindNamedDof_eq_iff hubo a (FindNamedDof hubo a)).mp rfl
  have h2 := (FindNamedDof_eq_iff hubo b (FindNamedDof hubo a)).mp hab.symm
  rcases h1 with ⟨h, _⟩ | ⟨n, hv, hn, _⟩
  · exact absurd h ha
  · rcases h2 with ⟨h, _⟩ | ⟨n2, hv2, hn2, _⟩
    · exact absurd h ha
    · have : n = n2 := by omega
      subst this
      rw [hn] at hn2
      exact Option.some.inj hn2

/-! ## The mapping loop -/

theorem aliasName_eq_canonical (aliases : List (String × String)) (name : String) :
    aliasName aliases name = canonical aliases name := by
  unfold aliasName canonical
  cases List.lookup name aliases <;> simp

theorem mapJoint_eq {R : Type} (aliases : List (String × String)) (hubo : Skeleton R)
    (s : HuboAchTab R) (i : Int) :
    mapJoint aliases hubo s i =
      if jointMapped aliases hubo s i = true then
        { s with
          jointmap_phys_to_virtual :=
            s.jointmap_phys_to_virtual.assign i (jointTarget aliases hubo s i)
          jointmap_virtual_to_phys :=
            s.jointmap_virtual_to_phys.assign (jointTarget aliases hubo s i) i }
      else s := rfl

theorem mapJoints_succ {R : Type} (aliases : List (String × String)) (n : Nat)
    (hubo : Skeleton R) (s : HuboAchTab R) :
    mapJoints aliases (n + 1) hubo s =
      mapJoint aliases hubo (mapJoints aliases n hubo s) (n : Int) := by
  simp [mapJoints, List.range_succ, List.foldl_append]

theorem mapJoints_zero {R : Type} (aliases : List (String × String))
    (hubo : Skeleton R) (s : HuboAchTab R) : mapJoints aliases 0 hubo s = s := rfl

/-- The mapping loop writes the two maps and nothing else. -/
theorem mapJoints_frame {R : Type} (aliases : List (String × String)) (n : Nat)
    (hubo : Skeleton R) (s : HuboAchTab R) :
    (mapJoints aliases n hubo s).H_param = s.H_param ∧
    (mapJoints aliases n hubo s).H_state = s.H_state ∧
    (mapJoints aliases n hubo s).contr = s.contr ∧
    (mapJoints aliases n hubo s).cout = s.cout ∧
    (mapJoints aliases n hubo s).chan_hubo_ref = s.chan_hubo_ref ∧
    (mapJoints aliases n hubo s).chan_hubo_state = s.chan_hubo_state := by
  induction n with
  | zero => simp [mapJoints_zero]
  | succ n ih =>
    rw [mapJoints_succ, mapJoint_eq]
    split <;> simpa using ih

theorem jointTarget_mapJoints {R : Type} (aliases : List (String × String)) (n : Nat)
    (hubo : Skeleton R) (s : HuboAchTab R) (i : Int) :
    jointTarget aliases hubo (mapJoints aliases n hubo s) i = jointTarget aliases hubo s i := by
  unfold jointTarget
  rw [(mapJoints_frame aliases n hubo s).1]

theorem jointMapped_mapJoints {R : Type} (aliases : List (String × String)) (n : Nat)
    (hubo : Skeleton R) (s : HuboAchTab R) (i : Int) :
    jointMapped aliases hubo (mapJoints aliases n hubo s) i = jointMapped aliases hubo s i := by
  unfold jointMapped
  rw [jointTarget_mapJoints, (mapJoints_frame aliases n hubo s).2.1]

/-- What `jointmap_phys_to_virtual` holds after `n` iterations. -/
theorem mapJoints_p2v {R : Type} (aliases : List (String × String)) (n : Nat)
    (hubo : Skeleton R) (s : HuboAchTab R) (k : Int) :
    (mapJoints aliases n hubo s).jointmap_phys_to_virtual.find k =
      if 0 ≤ k ∧ k < n ∧ jointMapped aliases hubo s k = true then
        some (jointTarget aliases hubo s k)
      else s.jointmap_phys_to_virtual.find k := by
  induction n with
  | zero =>
    have : ¬ (0 ≤ k ∧ k < ((0 : Nat) : Int) ∧ jointMapped aliases hubo s k = true) := by
      rintro ⟨h0, h1, _⟩
      omega
    rw [mapJoints_zero, if_neg this]
  | succ n ih =>
    rw [mapJoints_succ, mapJoint_eq, jointMapped_mapJoints, jointTarget_mapJoints]
    by_cases hm : jointMapped aliases hubo s (n : Int) = true
    · rw [if_pos hm]
      simp only [IntMap.find_assign]
      by_cases hk : k = (n : Int)
      · subst hk
        have : (0 : Int) ≤ (n : Int) ∧ (n : Int) < ((n + 1 : Nat) : Int) ∧
            jointMapped aliases hubo s (n : Int) = true := ⟨by omega, by omega, hm⟩
        rw [if_pos rfl, if_pos this]
      · rw [if_neg hk, ih]
        have : (0 ≤ k ∧ k < (n : Int) ∧ jointMapped aliases hubo s k = true) ↔
            (0 ≤ k ∧ k < ((n + 1 : Nat) : Int) ∧ jointMapped aliases hubo s k = true) := by
          constructor
          · rintro ⟨a, b, c⟩; exact ⟨a, by omega, c⟩
          · rintro ⟨a, b, c⟩; exact ⟨a, by omega, c⟩
        simp only [this]
    · rw [if_neg hm, ih]
      have : (0 ≤ k ∧ k < (n : Int) ∧ jointMapped aliases hubo s k = true) ↔
          (0 ≤ k ∧ k < ((n + 1 : Nat) : Int) ∧ jointMapped aliases hubo s k = true) := by
        constructor
        · rintro ⟨a, b, c⟩; exact ⟨a, by omega, c⟩
        · rintro ⟨a, b, c⟩
          refine ⟨a, ?_, c⟩
          by_contra hlt
          have hk : k = (n : Int) := by omega
          rw [hk] at c
          exact hm c
      simp only [this]

/-- What `jointmap_virtual_to_phys` holds after `n` iterations: the last
joint below `n` that was mapped to the DOF, or the entry held before the
loop when no joint below `n` was mapped to it. -/
theorem mapJoints_v2p {R : Type} (aliases : List (String × String)) (n : Nat)
    (hubo : Skeleton R) (s : HuboAchTab R) (v p : Int) :
    (mapJoints aliases n hubo s).jointmap_virtual_to_phys.find v = some p ↔
      (0 ≤ p ∧ p < n ∧ jointMapped aliases hubo s p = true ∧
        jointTarget aliases hubo s p = v ∧
        ∀ q : Int, p < q → q < n →
          ¬ (jointMapped aliases hubo s q = true ∧ jointTarget aliases hubo s q = v)) ∨
      (s.jointmap_virtual_to_phys.find v = some p ∧
        ∀ q : Int, 0 ≤ q → q < n →
          ¬ (jointMapped aliases hubo s q = true ∧ jointTarget aliases hubo s q = v)) := by
  induction n generalizing p with
  | zero =>
    rw [mapJoints_zero]
    constructor
    · intro h
      exact Or.inr ⟨h, fun q h0 h1 => by omega⟩
    · rintro (⟨h0, h1, _⟩ | ⟨h, _⟩)
      · omega
      · exact h
  | succ n ih =>
    rw [mapJoints_succ, mapJoint_eq, jointMapped_mapJoints, jointTarget_mapJoints]
    by_cases hm : jointMapped aliases hubo s (n : Int) = true
    · rw [if_pos hm]
      simp only [IntMap.find_assign]
      by_cases hv : v = jointTarget aliases hubo s (n : Int)
      · rw [if_pos hv]
        constructor
        · intro h
          have hp : p = (n : Int) := (Option.some.inj h).symm
          subst hp
          exact Or.inl ⟨by omega, by omega, hm, hv.symm, fun q h1 h2 => by omega⟩
        · rintro (⟨h0, h1, _, _, hq⟩ | ⟨_, hq⟩)
          · by_cases hp : p = (n : Int)
            · rw [hp]
            · exact absurd ⟨hm, hv.symm⟩ (hq n (by omega) (by omega))
          · exact absurd ⟨hm, hv.symm⟩ (hq n (by omega) (by omega))
      · rw [if_neg hv, ih]
        constructor
        · rintro (⟨h0, h1, h2, h3, hq⟩ | ⟨h, hq⟩)
          · refine Or.inl ⟨h0, by omega, h2, h3, fun q a b => ?_⟩
            by_cases hqn : q = (n : Int)
            · subst hqn
              exact fun c => hv c.2.symm
            · exact hq q a (by omega)
          · refine Or.inr ⟨h, fun q a b => ?_⟩
            by_cases hqn : q = (n : Int)
            · subst hqn
              exact fun c => hv c.2.symm
            · exact hq q a (by omega)
        · rintro (⟨h0, h1, h2, h3, hq⟩ | ⟨h, hq⟩)
          · have hp : p ≠ (n : Int) := by
              intro e
              rw [e] at h3
              exact hv h3.symm
            exact Or.inl ⟨h0, by omega, h2, h3, fun q a b => hq q a (by omega)⟩
          · exact Or.inr ⟨h, fun q a b => hq q a (by omega)⟩
    · rw [if_neg hm, ih]
      constructor
      · rintro (⟨h0, h1, h2, h3, hq⟩ | ⟨h, hq⟩)
        · refine Or.inl ⟨h0, by omega, h2, h3, fun q a b => ?_⟩
          by_cases hqn : q = (n : Int)
          · subst hqn
            exact fun c => hm c.1
          · exact hq q a (by omega)
        · refine Or.inr ⟨h, fun q a b => ?_⟩
          by_cases hqn : q = (n : Int)
          · subst hqn
            exact fun c => hm c.1
          · exact hq q a (by omega)
      · rintro (⟨h0, h1, h2, h3, hq⟩ | ⟨h, hq⟩)
        · have hp : p ≠ (n : Int) := by
            intro e
            rw [e] at h2
            exact hm h2
          exact Or.inl ⟨h0, by omega, h2, h3, fun q a b => hq q a (by omega)⟩
        · exact Or.inr ⟨h, fun q a b => hq q a (by omega)⟩

/-- Every entry of `jointmap_virtual_to_phys` written by the loop has its
mirror entry in `jointmap_phys_to_virtual`. -/
theorem mapJoints_v2p_imp_p2v {R : Type} (aliases : List (String × String)) (n : Nat)
    (hubo : Skeleton R) (s : HuboAchTab R) (hv : s.jointmap_virtual_to_phys = [])
    (v p : Int)
    (h : (mapJoints aliases n hubo s).jointmap_virtual_to_phys.find v = some p) :
    (mapJoints aliases n hubo s).jointmap_phys_to_virtual.find p = some v := by
  rw [mapJoints_v2p] at h
  rcases h with ⟨h0, h1, h2, h3, _⟩ | ⟨h, _⟩
  · rw [mapJoints_p2v, if_pos ⟨h0, h1, h2⟩, h3]
  · rw [hv] at h
    exact absurd h (by simp [IntMap.find_nil])

theorem jointMapped_iff {R : Type} (aliases : List (String × String)) (hubo : Skeleton R)
    (s : HuboAchTab R) (i : Int) :
    jointMapped aliases hubo s i = true ↔
      (s.H_state.joint i).active = true ∧
        canonical aliases (s.H_param.joint i).name ∈ hubo.dofs := by
  unfold jointMapped jointTarget
  rw [aliasName_eq_canonical, Bool.and_eq_true, bne_iff_ne, FindNamedDof_ne_neg_one_iff]

theorem jointTarget_eq {R : Type} (aliases : List (String × String)) (hubo : Skeleton R)
    (s : HuboAchTab R) (i : Int) :
    jointTarget aliases hubo s i =
      FindNamedDof hubo (canonical aliases (s.H_param.joint i).name) := by
  unfold jointTarget
  rw [aliasName_eq_canonical]

/-! ## C1: the two maps as inverses -/

/-- C1, as stated, fails: with two active joints `RKN` and `RKP` and one DOF
`RKP`, `jointmap_phys_to_virtual` holds `0 -> 0` and `1 -> 0` while
`jointmap_virtual_to_phys` holds only `0 -> 1`, so the maps are not
inverses. -/
theorem mapJoints_shared_name_not_inverse :
    ¬ (∀ p v : Int,
        sharedNameTab.jointmap_phys_to_virtual.find p = some v ↔
          sharedNameTab.jointmap_virtual_to_phys.find v = some p) := by
  intro h
  have h1 : sharedNameTab.jointmap_phys_to_virtual.find 0 = some 0 := by decide
  have h2 : ¬ sharedNameTab.jointmap_virtual_to_phys.find 0 = some 0 := by decide
  exact h2 ((h 0 0).mp h1)

/-- C1, amended: when no two distinct active joints of the catalog have the
same canonical name that is also a DOF name, the mapping loop run on empty
maps leaves `jointmap_phys_to_virtual` and `jointmap_virtual_to_phys` exact
inverses: one holds `p -> v` if and only if the other holds `v -> p`. -/
theorem mapJoints_inverse_of_distinct {R : Type} (aliases : List (String × String))
    (HUBO_JOINT_COUNT : Nat) (hubo : Skeleton R) (s : HuboAchTab R)
    (hp : s.jointmap_phys_to_virtual = []) (hv : s.jointmap_virtual_to_phys = [])
    (hdistinct : ∀ i j : Nat, i < HUBO_JOINT_COUNT → j < HUBO_JOINT_COUNT →
      (s.H_state.joint i).active = true → (s.H_state.joint j).active = true →
      canonical aliases (s.H_param.joint i).name = canonical aliases (s.H_param.joint j).name →
      canonical aliases (s.H_param.joint i).name ∈ hubo.dofs → i = j)
    (p v : Int) :
    (mapJoints aliases HUBO_JOINT_COUNT hubo s).jointmap_phys_to_virtual.find p = some v ↔
      (mapJoints aliases HUBO_JOINT_COUNT hubo s).jointmap_virtual_to_phys.find v = some p := by
  constructor
  · intro h
    rw [mapJoints_p2v] at h
    split at h
    · rename_i hc
      obtain ⟨h0, h1, h2⟩ := hc
      have h3 : jointTarget aliases hubo s p = v := Option.some.inj h
      rw [mapJoints_v2p]
      refine Or.inl ⟨h0, h1, h2, h3, ?_⟩
      rintro q hpq hqn ⟨hq, hqv⟩
      obtain ⟨i, rfl⟩ := Int.eq_ofNat_of_zero_le h0
      obtain ⟨j, rfl⟩ := Int.eq_ofNat_of_zero_le (by omega : (0 : Int) ≤ q)
      have hi := (jointMapped_iff aliases hubo s i).mp h2
      have hj := (jointMapped_iff aliases hubo s j).mp hq
      have hne : FindNamedDof hubo (canonical aliases (s.H_param.joint i).name) ≠ -1 :=
        (FindNamedDof_ne_neg_one_iff hubo _).mpr hi.2
      have heq : FindNamedDof hubo (canonical aliases (s.H_param.joint i).name) =
          FindNamedDof hubo (canonical aliases (s.H_param.joint j).name) := by
        rw [← jointTarget_eq, ← jointTarget_eq, h3, hqv]
      have hnames := FindNamedDof_inj hubo _ _ hne heq
      have := hdistinct i j (by omega) (by omega) hi.1 hj.1 hnames hi.2
      omega
    · rw [hp] at h
      exact absurd h (by simp [IntMap.find_nil])
  · exact mapJoints_v2p_imp_p2v aliases HUBO_JOINT_COUNT hubo s hv v p

/-- The amended C1 applied to the catalog `RKN`, `LKN`, `HEAD` at `p = 0`,
`v = 0`. -/
theorem mapJoints_inverse_of_distinct_witness :
    (kneeTab.jointmap_phys_to_virtual = [] ∧ kneeTab.jointmap_virtual_to_phys = []) ∧
    ((mapJoints special_cases 3 kneeModel kneeTab).jointmap_phys_to_virtual.find 0 = some 0 ↔
      (mapJoints special_cases 3 kneeModel kneeTab).jointmap_virtual_to_phys.find 0 = some 0) :=
  ⟨⟨rfl, rfl⟩,
    mapJoints_inverse_of_distinct special_cases 3 kneeModel kneeTab rfl rfl
      (by
        intro i j hi hj
        have hi3 : i = 0 ∨ i = 1 ∨ i = 2 := by omega
        have hj3 : j = 0 ∨ j = 1 ∨ j = 2 := by omega
        rcases hi3 with rfl | rfl | rfl <;> rcases hj3 with rfl | rfl | rfl <;> decide)
      0 0⟩

/-! ## C8: `jointmap_phys_to_virtual` as a function of the catalog -/

/-- C8: after the mapping loop on an empty `jointmap_phys_to_virtual`, a
physical id `p` holds `v` exactly when `p` is a joint id below
`HUBO_JOINT_COUNT`, the joint is active and `v` is the least DOF index named
`canonical(p)`; `p` is mapped exactly when it is active and some DOF is named
`canonical(p)`; `FindNamedDof` is `-1` exactly when no DOF has the name and
is the first match otherwise. -/
theorem mapJoints_phys_to_virtual_spec {R : Type} (aliases : List (String × String))
    (HUBO_JOINT_COUNT : Nat) (hubo : Skeleton R) (s : HuboAchTab R)
    (hp : s.jointmap_phys_to_virtual = []) (p v : Int) :
    ((mapJoints aliases HUBO_JOINT_COUNT hubo s).jointmap_phys_to_virtual.find p = some v ↔
      ∃ i n : Nat, p = i ∧ i < HUBO_JOINT_COUNT ∧ (s.H_state.joint p).active = true ∧
        v = n ∧ hubo.dofs[n]? = some (canonical aliases (s.H_param.joint p).name) ∧
        ∀ u, u < n → hubo.dofs[u]? ≠ some (canonical aliases (s.H_param.joint p).name)) ∧
    (((mapJoints aliases HUBO_JOINT_COUNT hubo s).jointmap_phys_to_virtual.find p).isSome = true ↔
      ∃ i : Nat, p = i ∧ i < HUBO_JOINT_COUNT ∧ (s.H_state.joint p).active = true ∧
        canonical aliases (s.H_param.joint p).name ∈ hubo.dofs) ∧
    (∀ name, FindNamedDof hubo name = -1 ↔ name ∉ hubo.dofs) ∧
    (∀ name (n : Nat), hubo.dofs[n]? = some name →
      (∀ u, u < n → hubo.dofs[u]? ≠ some name) → FindNamedDof hubo name = n) := by
  refine ⟨?_, ?_, FindNamedDof_eq_neg_one_iff hubo, ?_⟩
  · rw [mapJoints_p2v, hp, IntMap.find_nil]
    constructor
    · intro h
      split at h
      · rename_i hc
        obtain ⟨h0, h1, h2⟩ := hc
        obtain ⟨i, rfl⟩ := Int.eq_ofNat_of_zero_le h0
        have hm := (jointMapped_iff aliases hubo s i).mp h2
        have ht : FindNamedDof hubo (canonical aliases (s.H_param.joint i).name) = v := by
          rw [← jointTarget_eq]
          exact Option.some.inj h
        rcases (FindNamedDof_eq_iff hubo _ v).mp ht with ⟨_, hnot⟩ | ⟨n, hv, hn, hmin⟩
        · exact absurd hm.2 hnot
        · exact ⟨i, n, rfl, by omega, hm.1, hv, hn, hmin⟩
      · exact absurd h (by simp)
    · rintro ⟨i, n, rfl, hi, hact, rfl, hn, hmin⟩
      have hmem : canonical aliases (s.H_param.joint i).name ∈ hubo.dofs :=
        List.getElem?_mem hn
      have hm := (jointMapped_iff aliases hubo s i).mpr ⟨hact, hmem⟩
      rw [if_pos ⟨by omega, by omega, hm⟩, jointTarget_eq]
      exact congrArg some ((FindNamedDof_eq_iff hubo _ _).mpr (Or.inr ⟨n, rfl, hn, hmin⟩))
  · rw [mapJoints_p2v, hp, IntMap.find_nil]
    constructor
    · intro h
      split at h
      · rename_i hc
        obtain ⟨h0, h1, h2⟩ := hc
        obtain ⟨i, rfl⟩ := Int.eq_ofNat_of_zero_le h0
        have hm := (jointMapped_iff aliases hubo s i).mp h2
        exact ⟨i, rfl, by omega, hm.1, hm.2⟩
      · simp at h
    · rintro ⟨i, rfl, hi, hact, hmem⟩
      have hm := (jointMapped_iff aliases hubo s i).mpr ⟨hact, hmem⟩
      rw [if_pos ⟨by omega, by omega, hm⟩]
      rfl
  · intro name n hn hmin
    exact (FindNamedDof_eq_iff hubo name n).mpr (Or.inr ⟨n, rfl, hn, hmin⟩)

/-- C8 applied to joint `RKN` of the catalog `RKN`, `LKN`, `HEAD`: its own
name is not a DOF name, its alias `RKP` is DOF `0`. -/
theorem mapJoints_phys_to_virtual_spec_witness :
    kneeTab.jointmap_phys_to_virtual = [] ∧
    "RKN" ∉ kneeModel.dofs ∧
    (((mapJoints special_cases 3 kneeModel kneeTab).jointmap_phys_to_virtual.find 0 = some 0 ↔
      ∃ i n : Nat, (0 : Int) = i ∧ i < 3 ∧ (kneeTab.H_state.joint 0).active = true ∧
        (0 : Int) = n ∧
        kneeModel.dofs[n]? = some (canonical special_cases (kneeTab.H_param.joint 0).name) ∧
        ∀ u, u < n →
          kneeModel.dofs[u]? ≠ some (canonical special_cases (kneeTab.H_param.joint 0).name)) ∧
    (((mapJoints special_cases 3 kneeModel kneeTab).jointmap_phys_to_virtual.find 0).isSome = true ↔
      ∃ i : Nat, (0 : Int) = i ∧ i < 3 ∧ (kneeTab.H_state.joint 0).active = true ∧
        canonical special_cases (kneeTab.H_param.joint 0).name ∈ kneeModel.dofs) ∧
    (∀ name, FindNamedDof kneeModel name = -1 ↔ name ∉ kneeModel.dofs) ∧
    (∀ name (n : Nat), kneeModel.dofs[n]? = some name →
      (∀ u, u < n → kneeModel.dofs[u]? ≠ some name) → FindNamedDof kneeModel name = n)) :=
  ⟨rfl, by decide, mapJoints_phys_to_virtual_spec special_cases 3 kneeModel kneeTab rfl 0 0⟩

/-! ## C9: inactive joints -/

/-- C9: after the mapping loop on empty maps, a physical joint whose
`active` flag is off is not a key of `jointmap_phys_to_virtual` and not a
value of `jointmap_virtual_to_phys`, whatever the DOF names are. -/
theorem mapJoints_inactive_unmapped {R : Type} (aliases : List (String × String))
    (HUBO_JOINT_COUNT : Nat) (hubo : Skeleton R) (s : HuboAchTab R)
    (hp : s.jointmap_phys_to_virtual = []) (hv : s.jointmap_virtual_to_phys = [])
    (p : Int) (hinactive : (s.H_state.joint p).active = false) :
    (mapJoints aliases HUBO_JOINT_COUNT hubo s).jointmap_phys_to_virtual.find p = none ∧
    ∀ v : Int,
      (mapJoints aliases HUBO_JOINT_COUNT hubo s).jointmap_virtual_to_phys.find v ≠ some p := by
  have hnot : ¬ (0 ≤ p ∧ p < (HUBO_JOINT_COUNT : Int) ∧ jointMapped aliases hubo s p = true) := by
    rintro ⟨_, _, hm⟩
    have := ((jointMapped_iff aliases hubo s p).mp hm).1
    rw [hinactive] at this
    exact Bool.false_ne_true this
  have hnone : (mapJoints aliases HUBO_JOINT_COUNT hubo s).jointmap_phys_to_virtual.find p
      = none := by
    rw [mapJoints_p2v, if_neg hnot, hp, IntMap.find_nil]
  refine ⟨hnone, fun v h => ?_⟩
  have := mapJoints_v2p_imp_p2v aliases HUBO_JOINT_COUNT hubo s hv v p h
  rw [hnone] at this
  exact Option.noConfusion this

/-- C9 on the catalog `RKN` (active), `LKN` (active), `HEAD` (inactive) with
DOFs `RKP`, `LKP`, `HEAD`: `HEAD` (id `2`) is unmapped in both directions,
while `RKN <-> RKP` and `LKN <-> LKP` are mapped. -/
theorem mapJoints_inactive_unmapped_witness :
    (kneeTab.jointmap_phys_to_virtual = [] ∧ kneeTab.jointmap_virtual_to_phys = [] ∧
      (kneeTab.H_state.joint 2).active = false ∧ "HEAD" ∈ kneeModel.dofs) ∧
    ((mapJoints special_cases 3 kneeModel kneeTab).jointmap_phys_to_virtual.find 2 = none ∧
      ∀ v : Int,
        (mapJoints special_cases 3 kneeModel kneeTab).jointmap_virtual_to_phys.find v
          ≠ some 2) ∧
    ((mapJoints special_cases 3 kneeModel kneeTab).jointmap_phys_to_virtual.find 0 = some 0 ∧
      (mapJoints special_cases 3 kneeModel kneeTab).jointmap_virtual_to_phys.find 0 = some 0 ∧
      (mapJoints special_cases 3 kneeModel kneeTab).jointmap_phys_to_virtual.find 1 = some 1 ∧
      (mapJoints special_cases 3 kneeModel kneeTab).jointmap_virtual_to_phys.find 1 = some 1) :=
  ⟨⟨rfl, rfl, rfl, by decide⟩,
    mapJoints_inactive_unmapped special_cases 3 kneeModel kneeTab rfl rfl 2 rfl,
    by decide⟩

/-! ## C6: the empty correspondence -/

theorem mapJoints_eq_self_of_unmapped {R : Type} (aliases : List (String × String))
    (n : Nat) (hubo : Skeleton R) (s : HuboAchTab R)
    (h : ∀ i : Nat, i < n → jointMapped aliases hubo s i = false) :
    mapJoints aliases n hubo s = s := by
  induction n with
  | zero => rfl
  | succ n ih =>
    have hprev := ih (fun i hi => h i (Nat.lt_succ_of_lt hi))
    rw [mapJoints_succ, hprev, mapJoint_eq, h n (Nat.lt_succ_self n)]
    simp

/-- C6: the emptiness check of `InitHubo` is defeated on a reload, because
`GRIPEventSceneUnLoaded` leaves the maps of the earlier model in place. A
first load maps `RSP` and succeeds; after the unload, a second load with a
model none of whose DOFs is named like an active joint still finds the old
entry `0 -> 0` in both maps, returns `true`, constructs a controller and
prints no diagnostic. -/
theorem InitHubo_second_load_keeps_old_maps :
    firstLoad.1 = true ∧
    (GRIPEventSceneUnLoaded firstLoad.2).contr.isSome = false ∧
    (GRIPEventSceneUnLoaded firstLoad.2).jointmap_phys_to_virtual.find 0 = some 0 ∧
    canonical special_cases "RSP" ∉ otherModel.dofs ∧
    secondLoad.1 = true ∧
    secondLoad.2.contr.isSome = true ∧
    msgNoCorrespondence ∉ secondLoad.2.cout ∧
    secondLoad.2.jointmap_phys_to_virtual.find 0 = some 0 ∧
    secondLoad.2.jointmap_virtual_to_phys.find 0 = some 0 := by
  decide

/-- The emptiness check on maps that are empty on entry: when no active
joint's canonical name is a DOF name, `InitHubo` returns `false`, prints the
no-correspondence diagnostic and leaves `contr` as it was, for every
catalog, alias table and DOF list. -/
theorem InitHuboWith_no_match {R : Type} [Zero R] (aliases : List (String × String))
    (HUBO_JOINT_COUNT : Nat) (params : hubo_param × hubo_state R) (hubo : Skeleton R)
    (s : HuboAchTab R)
    (hp : s.jointmap_phys_to_virtual = []) (hv : s.jointmap_virtual_to_phys = [])
    (hno : ∀ i : Nat, i < HUBO_JOINT_COUNT → (params.2.joint i).active = true →
      canonical aliases (params.1.joint i).name ∉ hubo.dofs) :
    (InitHuboWith aliases HUBO_JOINT_COUNT params hubo s).1 = false ∧
    (InitHuboWith aliases HUBO_JOINT_COUNT params hubo s).2.cout
      = s.cout ++ [msgNoCorrespondence] ∧
    (InitHuboWith aliases HUBO_JOINT_COUNT params hubo s).2.contr = s.contr := by
  have hun : ∀ i : Nat, i < HUBO_JOINT_COUNT →
      jointMapped aliases hubo { s with H_param := params.1, H_state := params.2 } i
        = false := by
    intro i hi
    rw [Bool.eq_false_iff]
    intro hm
    have := (jointMapped_iff aliases hubo _ i).mp hm
    exact hno i hi this.1 this.2
  have hself := mapJoints_eq_self_of_unmapped aliases HUBO_JOINT_COUNT hubo
    { s with H_param := params.1, H_state := params.2 } hun
  have h1 : (mapJoints aliases HUBO_JOINT_COUNT hubo
      { s with H_param := params.1, H_state := params.2 }).jointmap_phys_to_virtual = [] := by
    rw [hself]; exact hp
  have h2 : (mapJoints aliases HUBO_JOINT_COUNT hubo
      { s with H_param := params.1, H_state := params.2 }).jointmap_virtual_to_phys = [] := by
    rw [hself]; exact hv
  have h3 := (mapJoints_frame aliases HUBO_JOINT_COUNT hubo
      { s with H_param := params.1, H_state := params.2 })
  unfold InitHuboWith
  simp only [h1, h2, IntMap.empty, List.isEmpty_nil, Bool.and_self, if_true]
  exact ⟨trivial, by rw [h3.2.2.2.1], by rw [h3.2.2.1]⟩

/-- The emptiness check on a fresh tab: catalog with the single active joint
`RSP`, model `otherModel`. -/
theorem InitHuboWith_no_match_witness :
    (freshTab.jointmap_phys_to_virtual = [] ∧ freshTab.jointmap_virtual_to_phys = []) ∧
    (InitHuboWith special_cases 1 (catalogParams ["RSP"] [true]) otherModel freshTab).1 = false ∧
    (InitHuboWith special_cases 1 (catalogParams ["RSP"] [true]) otherModel freshTab).2.cout
      = freshTab.cout ++ [msgNoCorrespondence] ∧
    (InitHuboWith special_cases 1 (catalogParams ["RSP"] [true]) otherModel freshTab).2.contr
      = freshTab.contr :=
  ⟨⟨rfl, rfl⟩,
    InitHuboWith_no_match special_cases 1 (catalogParams ["RSP"] [true]) otherModel freshTab
      rfl rfl
      (by
        intro i hi _
        have : i = 0 := by omega
        subst this
        decide)⟩

/-! ## C5: opening the channels -/

/-- C5, as stated, fails: when the reference channel opens and the state
channel does not, `InitAch` returns `false` with the reference channel
still open. -/
theorem InitAch_leaves_ref_channel_open :
    (InitAch ach_status.ACH_OK (ach_status.other 9) freshTab).1 = false ∧
    (InitAch ach_status.ACH_OK (ach_status.other 9) freshTab).2.chan_hubo_ref
      = ach_channel.opened ∧
    freshTab.chan_hubo_ref = ach_channel.closed := by
  decide

/-- C5, amended: `InitAch` returns `true` exactly when both `ach_open` calls
return `ACH_OK`. The reference channel is open afterwards whenever its
`ach_open` returned `ACH_OK`, also when the state channel then failed;
otherwise its handle is as before. The state channel is opened only when
both calls returned `ACH_OK`. `InitAch` closes nothing. -/
theorem InitAch_channels {R : Type} (r_ref r_state : ach_status) (s : HuboAchTab R) :
    (InitAch r_ref r_state s).1
      = decide (r_ref = ach_status.ACH_OK ∧ r_state = ach_status.ACH_OK) ∧
    (InitAch r_ref r_state s).2.chan_hubo_ref
      = (if r_ref = ach_status.ACH_OK then ach_channel.opened else s.chan_hubo_ref) ∧
    (InitAch r_ref r_state s).2.chan_hubo_state
      = (if r_ref = ach_status.ACH_OK ∧ r_state = ach_status.ACH_OK then ach_channel.opened
          else s.chan_hubo_state) := by
  unfold InitAch
  by_cases h1 : r_ref = ach_status.ACH_OK <;> by_cases h2 : r_state = ach_status.ACH_OK <;>
    simp [h1, h2]

/-! ## C10: reads that bring no message -/

theorem InitHuboWith_true_contr {R : Type} [Zero R] (aliases : List (String × String))
    (HUBO_JOINT_COUNT : Nat) (params : hubo_param × hubo_state R) (hubo : Skeleton R)
    (s : HuboAchTab R) (h : (InitHuboWith aliases HUBO_JOINT_COUNT params hubo s).1 = true) :
    (InitHuboWith aliases HUBO_JOINT_COUNT params hubo s).2.contr
      = some { ref_pos := fun _ => 0 } := by
  unfold InitHuboWith at h ⊢
  dsimp only at h ⊢
  split_ifs at h ⊢
  simp at h ⊢

/-- C10: for every status other than `ACH_OK` (`ACH_STALE_FRAMES` and every
failure status) and every content of the receive buffer, `ReadRefs` leaves
the controller, hence every entry of `ref_pos`, as it was; right after a
successful `InitHubo` every target is therefore still zero. -/
theorem ReadRefs_not_ok_keeps_targets {R : Type} [Zero R] (HUBO_JOINT_COUNT : Nat)
    (ach_result_to_string : ach_status → String) (r : ach_status) (H_ref : hubo_ref_t R)
    (s : HuboAchTab R) (hr : r ≠ ach_status.ACH_OK) :
    (ReadRefs HUBO_JOINT_COUNT ach_result_to_string r H_ref s).contr = s.contr ∧
    ∀ (aliases : List (String × String)) (params : hubo_param × hubo_state R)
      (hubo : Skeleton R) (s₀ : HuboAchTab R),
      (InitHuboWith aliases HUBO_JOINT_COUNT params hubo s₀).1 = true →
      ∃ c, (ReadRefs HUBO_JOINT_COUNT ach_result_to_string r H_ref
              (InitHuboWith aliases HUBO_JOINT_COUNT params hubo s₀).2).contr = some c ∧
        ∀ v : Int, c.ref_pos v = 0 := by
  have hkeep : ∀ t : HuboAchTab R,
      (ReadRefs HUBO_JOINT_COUNT ach_result_to_string r H_ref t).contr = t.contr := by
    intro t
    cases r with
    | ACH_OK => exact absurd rfl hr
    | ACH_STALE_FRAMES => rfl
    | other code => rfl
  refine ⟨hkeep s, fun aliases params hubo s₀ h => ?_⟩
  refine ⟨{ ref_pos := fun _ => 0 }, ?_, fun _ => rfl⟩
  rw [hkeep, InitHuboWith_true_contr aliases HUBO_JOINT_COUNT params hubo s₀ h]

/-- C10 at `ACH_STALE_FRAMES` on the tab `armTab`, with a receive buffer
that holds non-zero values. -/
theorem ReadRefs_not_ok_keeps_targets_witness :
    ach_status.ACH_STALE_FRAMES ≠ ach_status.ACH_OK ∧
    ((ReadRefs 2 (fun _ => "") ach_status.ACH_STALE_FRAMES armRef armTab).contr = armTab.contr ∧
    ∀ (aliases : List (String × String)) (params : hubo_param × hubo_state Int)
      (hubo : Skeleton Int) (s₀ : HuboAchTab Int),
      (InitHuboWith aliases 2 params hubo s₀).1 = true →
      ∃ c, (ReadRefs 2 (fun _ => "") ach_status.ACH_STALE_FRAMES armRef
              (InitHuboWith aliases 2 params hubo s₀).2).contr = some c ∧
        ∀ v : Int, c.ref_pos v = 0) :=
  ⟨by decide,
    ReadRefs_not_ok_keeps_targets 2 (fun _ => "") ach_status.ACH_STALE_FRAMES armRef armTab
      (by decide)⟩

/-! ## C2, C3, C4, C7: reading a map at a key it does not hold

`ReadRefs` and `WriteState` read the maps with `operator[]` and test the
value against `-1`. For a key the map does not hold, `operator[]` inserts
the key with value `0` and returns `0`, so the test passes and index `0` is
used. -/

end HACHT
